import Mathlib

/-!
Shallow embedding of the `belak/rust-sdl` safe layer (crate `sdl`) over the
SDL 1.2 C library, together with theorems checking the natural-language
specification of the crate against the code.

Conventions of the embedding:
* Machine integers (`u8`, `u16`, `u32`) become `Nat`; signed integers
  (`i16`, `i32`) become `Int`.  None of the embedded operations perform
  wrapping arithmetic except the big-endian byte packing of `Color`, where
  the `u8` byte width is made explicit with `% 256`.
* The native C library (linked via the generated `sdl-sys` bindings) is a
  stateful external capability.  Calls into it are recorded as explicit
  trace elements of type `NativeCall`, and the outcome of a fallible native
  call is supplied by an explicit environment value, so that every embedded
  function is a pure function of its inputs and that environment.
* Rust ownership and borrowing have no direct counterpart in Lean; where a
  claim rests on them (guard lifetimes, drop-exactly-once) the discipline
  the Rust compiler enforces is embedded as an explicit well-formedness
  predicate on abstract lifecycle traces, and the per-type `Drop` and
  constructor bodies are translated from the source.
-/

namespace RustSdl

/-! ## Constants from the SDL 1.2 headers

These numeric values are produced for the crate by `bindgen` from the SDL
1.2 C headers (`sdl-sys`); the headers are external to the crate sources,
so the standard SDL 1.2 values are used here. -/

def SDL_RELEASED : Nat := 0

def SDL_PRESSED : Nat := 1

def SDL_APPMOUSEFOCUS : Nat := 0x01

def SDL_APPINPUTFOCUS : Nat := 0x02

def SDL_APPACTIVE : Nat := 0x04

def SDL_INIT_TIMER : Nat := 0x00000001

def SDL_INIT_AUDIO : Nat := 0x00000010

def SDL_INIT_VIDEO : Nat := 0x00000020

def SDL_INIT_CDROM : Nat := 0x00000100

def SDL_INIT_JOYSTICK : Nat := 0x00000200

def SDL_INIT_EVENTTHREAD : Nat := 0x01000000

def SDL_BUTTON_LEFT : Nat := 1

def SDL_BUTTON_MIDDLE : Nat := 2

def SDL_BUTTON_RIGHT : Nat := 3

def SDL_BUTTON_WHEELUP : Nat := 4

def SDL_BUTTON_WHEELDOWN : Nat := 5

def SDL_BUTTON_X1 : Nat := 6

def SDL_BUTTON_X2 : Nat := 7

/-- Event type discriminants of the SDL 1.2 tagged event union. -/
def SDL_ACTIVEEVENT : Nat := 1

def SDL_KEYDOWN : Nat := 2

def SDL_KEYUP : Nat := 3

def SDL_MOUSEMOTION : Nat := 4

def SDL_MOUSEBUTTONDOWN : Nat := 5

def SDL_MOUSEBUTTONUP : Nat := 6

def SDL_JOYAXISMOTION : Nat := 7

def SDL_JOYBALLMOTION : Nat := 8

def SDL_JOYHATMOTION : Nat := 9

def SDL_JOYBUTTONDOWN : Nat := 10

def SDL_JOYBUTTONUP : Nat := 11

def SDL_QUITEVENT : Nat := 12

def SDL_SYSWMEVENT : Nat := 13

def SDL_VIDEORESIZE : Nat := 16

def SDL_VIDEOEXPOSE : Nat := 17

/-- The `SDL_errorcode` enumeration of the SDL 1.2 headers
(`SDL_error.h`), as exposed to the crate by `sdl-sys`. -/
inductive SDL_errorcode where
  | SDL_ENOMEM
  | SDL_EFREAD
  | SDL_EFWRITE
  | SDL_EFSEEK
  | SDL_UNSUPPORTED
  | SDL_LASTERROR
  deriving DecidableEq, Repr

/-! ## Error layer (`src/sdl/src/sdl.rs`) -/

/-- `enum ErrorCode` of `sdl.rs` (lines 81-93). -/
inductive ErrorCode where
  | NoMemError
  | ReadError
  | WriteError
  | SeekError
  | UnsupportedError
  deriving DecidableEq, Repr

/-- `impl From<sys::SDL_errorcode> for ErrorCode` of `sdl.rs`
(lines 95-106): the five named codes map to their variants, every other
code falls to the wildcard arm `_ => ErrorCode::UnsupportedError`. -/
def ErrorCode.fromSdlErrorcode (value : SDL_errorcode) : ErrorCode :=
  match value with
  | .SDL_ENOMEM => ErrorCode.NoMemError
  | .SDL_EFREAD => ErrorCode.ReadError
  | .SDL_EFWRITE => ErrorCode.WriteError
  | .SDL_EFSEEK => ErrorCode.SeekError
  | .SDL_UNSUPPORTED => ErrorCode.UnsupportedError
  | _ => ErrorCode.UnsupportedError

/-- `enum ErrorRepr` of `sdl.rs` (lines 73-79). -/
inductive ErrorRepr where
  | ErrorCode (code : ErrorCode)
  | Other (text : String)
  deriving DecidableEq, Repr

/-- `pub struct Error(ErrorRepr)` of `sdl.rs` (lines 69-71): a transparent
wrapper around `ErrorRepr`. -/
structure Error where
  inner : ErrorRepr
  deriving DecidableEq, Repr

/-- The global error state of the native library: the numeric code last
set through `SDL_Error` and the text returned by `SDL_GetError`.  The
embedded `get_error` is a pure function of this state. -/
structure ErrorState where
  code : SDL_errorcode
  text : String
  deriving DecidableEq, Repr

/-- `get_error` of `sdl.rs` (lines 60-67): reads the text returned by
`SDL_GetError()` and wraps it as `ErrorRepr::Other(text)`; the numeric
error code of the library state is not consulted. -/
def get_error (s : ErrorState) : Error :=
  ⟨ErrorRepr.Other s.text⟩

/-! ## Color (`src/sdl/src/sdl.rs`, lines 108-187) -/

/-- `pub struct Color` of `sdl.rs`: four `u8` channels, embedded as `Nat`. -/
structure Color where
  r : Nat
  g : Nat
  b : Nat
  a : Nat
  deriving DecidableEq, Repr

/-- `sys::SDL_Color`: the native pixel representation, three color bytes
plus one `unused` byte, in that field order (SDL 1.2 `SDL_video.h`). -/
structure SDL_Color where
  r : Nat
  g : Nat
  b : Nat
  unused : Nat
  deriving DecidableEq, Repr

/-- `Color::rgba` of `sdl.rs` (lines 121-123). -/
def Color.rgba (r g b a : Nat) : Color :=
  ⟨r, g, b, a⟩

/-- `Color::rgb` of `sdl.rs` (lines 117-119): alpha defaults to `0xff`. -/
def Color.rgb (r g b : Nat) : Color :=
  ⟨r, g, b, 0xff⟩

/-- The private `Color::raw` of `sdl.rs` (lines 138-145), which also gives
`impl Into<sys::SDL_Color> for Color` (lines 159-163): the alpha channel is
stored in the `unused` byte. -/
def Color.raw (c : Color) : SDL_Color :=
  ⟨c.r, c.g, c.b, c.a⟩

/-- `impl From<sys::SDL_Color> for Color` of `sdl.rs` (lines 165-169). -/
def Color.fromSdlColor (raw : SDL_Color) : Color :=
  Color.rgba raw.r raw.g raw.b raw.unused

/-- `impl Into<u32> for Color` of `sdl.rs` (lines 183-187):
`u32::from_be_bytes([r, g, b, a])`.  The `% 256` make the `u8` byte width
of each channel explicit. -/
def Color.intoU32 (c : Color) : Nat :=
  (((c.r % 256) * 256 + c.g % 256) * 256 + c.b % 256) * 256 + c.a % 256

/-- Modelled from the spec: the crate has no `From<u32> for Color`
conversion; the spec's Color round-trip through "a big-endian 32-bit
packed form" needs the unpacking direction, which is modelled here as the
inverse big-endian byte extraction. -/
def Color.fromU32 (n : Nat) : Color :=
  ⟨n / 2 ^ 24 % 256, n / 2 ^ 16 % 256, n / 2 ^ 8 % 256, n % 256⟩

/-! ## Native call traces

Every call the crate issues into the native library is recorded as one
trace element.  `getErrorRead` records the `SDL_GetError()` read performed
by `get_error`, so that the order between native calls and the error read
is visible in the trace. -/

inductive NativeCall where
  | sdlInit (mask : Nat)
  | sdlQuit
  | initSubSystem (mask : Nat)
  | quitSubSystem (mask : Nat)
  | setVideoMode (width height bpp flags : Nat)
  | setCaption (title : String)
  | flipCall
  | freeSurface
  | getErrorRead
  deriving DecidableEq, Repr

/-! ## WindowBuilder (`src/sdl/src/video.rs`) -/

/-- `pub struct Surface` of `video.rs` (lines 97-100): wraps one raw
surface pointer, embedded as a `Nat` handle. -/
structure Surface where
  inner : Nat
  deriving DecidableEq, Repr

/-- `pub enum WindowBuildError` of `video.rs` (lines 207-217).  In the
source `InvalidTitle` carries the `NulError` from `CString::new`; the
payload is dropped here as no claim concerns it. -/
inductive WindowBuildError where
  | HeightOverflows (n : Nat)
  | WidthOverflows (n : Nat)
  | InvalidTitle
  | SdlError (e : Error)
  deriving DecidableEq, Repr

/-- `pub struct WindowBuilder` of `video.rs` (lines 132-139): title,
`u32` width and height, and the accumulated flag bitmask. -/
structure WindowBuilder where
  title : String
  width : Nat
  height : Nat
  window_flags : Nat
  deriving DecidableEq, Repr

/-- `CString::new(title)` fails exactly when the string contains an
embedded NUL byte. -/
def titleHasNul (t : String) : Bool :=
  t.toList.contains (Char.ofNat 0)

/-- Outcome environment for one `build()` call: the surface pointer
returned by the native `SDL_SetVideoMode` (`none` models a null pointer)
and the library error state that `get_error` would read. -/
structure VideoEnv where
  modeSetResult : Option Nat
  errorState : ErrorState
  deriving DecidableEq, Repr

/-- `WindowBuilder::build` of `video.rs` (lines 154-183), returning the
result together with the ordered trace of native calls it performs:
1. `CString::new(title)`; on failure return `InvalidTitle` (no native call);
2. `width >= 1 << 31` fails with `WidthOverflows(width)` (no native call);
3. `height >= 1 << 31` fails with `HeightOverflows(self.width)` — the
   source passes the `width` field here (no native call);
4. `SDL_SetVideoMode(width, height, 32, flags)`;
5. `SDL_WM_SetCaption(title, null)` — issued unconditionally, before the
   null check of the mode-set result;
6. if the mode-set result is null, `get_error()` and `SdlError`;
   otherwise wrap the pointer in a `Surface`. -/
def WindowBuilder.build (b : WindowBuilder) (env : VideoEnv) :
    Except WindowBuildError Surface × List NativeCall :=
  if titleHasNul b.title then
    (Except.error WindowBuildError.InvalidTitle, [])
  else if 2 ^ 31 ≤ b.width then
    (Except.error (WindowBuildError.WidthOverflows b.width), [])
  else if 2 ^ 31 ≤ b.height then
    (Except.error (WindowBuildError.HeightOverflows b.width), [])
  else
    match env.modeSetResult with
    | none =>
        (Except.error (WindowBuildError.SdlError (get_error env.errorState)),
         [NativeCall.setVideoMode b.width b.height 32 b.window_flags,
          NativeCall.setCaption b.title,
          NativeCall.getErrorRead])
    | some p =>
        (Except.ok ⟨p⟩,
         [NativeCall.setVideoMode b.width b.height 32 b.window_flags,
          NativeCall.setCaption b.title])

/-! ## Event decoding (`src/sdl/src/event.rs`) -/

/-- `sys::SDL_keysym` (SDL 1.2 `SDL_keyboard.h`): scancode, sym, mod,
unicode; copied verbatim by the decoder. -/
structure SDL_keysym where
  scancode : Nat
  sym : Nat
  keyMod : Nat
  unicode : Nat
  deriving DecidableEq, Repr

/-- `sys::SDL_ActiveEvent` (SDL 1.2): type, gain, state bytes. -/
structure SDL_ActiveEvent where
  type : Nat
  gain : Nat
  state : Nat
  deriving DecidableEq, Repr

/-- `pub enum ActiveEvent` of `event.rs` (lines 45-53). -/
inductive ActiveEvent where
  | MouseEnter
  | MouseLeave
  | AppFocused
  | AppUnfocused
  | Minimized
  | Restored
  | Unknown
  deriving DecidableEq, Repr

/-- `impl From<sys::SDL_ActiveEvent> for ActiveEvent` of `event.rs`
(lines 55-67): an explicit lookup over the `(state, gain)` pair with a
wildcard arm to `Unknown`. -/
def ActiveEvent.fromRaw (value : SDL_ActiveEvent) : ActiveEvent :=
  if value.state = SDL_APPMOUSEFOCUS ∧ value.gain = 0 then ActiveEvent.MouseLeave
  else if value.state = SDL_APPMOUSEFOCUS ∧ value.gain = 1 then ActiveEvent.MouseEnter
  else if value.state = SDL_APPINPUTFOCUS ∧ value.gain = 0 then ActiveEvent.AppUnfocused
  else if value.state = SDL_APPINPUTFOCUS ∧ value.gain = 1 then ActiveEvent.AppFocused
  else if value.state = SDL_APPACTIVE ∧ value.gain = 0 then ActiveEvent.Minimized
  else if value.state = SDL_APPACTIVE ∧ value.gain = 1 then ActiveEvent.Restored
  else ActiveEvent.Unknown

/-- `sys::SDL_KeyboardEvent` (SDL 1.2): type, which, state, keysym. -/
structure SDL_KeyboardEvent where
  type : Nat
  which : Nat
  state : Nat
  keysym : SDL_keysym
  deriving DecidableEq, Repr

/-- `pub enum KeyboardEvent` of `event.rs` (lines 71-75). -/
inductive KeyboardEvent where
  | KeyUp (keysym : SDL_keysym)
  | KeyDown (keysym : SDL_keysym)
  | Unknown
  deriving DecidableEq, Repr

/-- `impl From<sys::SDL_KeyboardEvent> for KeyboardEvent` of `event.rs`
(lines 77-85): `SDL_RELEASED → KeyUp`, `SDL_PRESSED → KeyDown`, wildcard
to `Unknown`. -/
def KeyboardEvent.fromRaw (value : SDL_KeyboardEvent) : KeyboardEvent :=
  if value.state = SDL_RELEASED then KeyboardEvent.KeyUp value.keysym
  else if value.state = SDL_PRESSED then KeyboardEvent.KeyDown value.keysym
  else KeyboardEvent.Unknown

/-- `sys::SDL_MouseMotionEvent` (SDL 1.2). -/
structure SDL_MouseMotionEvent where
  type : Nat
  which : Nat
  state : Nat
  x : Nat
  y : Nat
  xrel : Int
  yrel : Int
  deriving DecidableEq, Repr

/-- `pub struct MouseMotionEvent` of `event.rs` (lines 89-99). -/
structure MouseMotionEvent where
  x : Nat
  y : Nat
  xrel : Int
  yrel : Int
  deriving DecidableEq, Repr

/-- `impl From<sys::SDL_MouseMotionEvent> for MouseMotionEvent` of
`event.rs` (lines 101-110): verbatim scalar copies. -/
def MouseMotionEvent.fromRaw (value : SDL_MouseMotionEvent) : MouseMotionEvent :=
  ⟨value.x, value.y, value.xrel, value.yrel⟩

/-- `pub enum Button` of `event.rs` (lines 120-130). -/
inductive Button where
  | Left
  | Middle
  | Right
  | WheelUp
  | WheelDown
  | X1
  | X2
  | Other (value : Nat)
  deriving DecidableEq, Repr

/-- `impl From<u8> for Button` of `event.rs` (lines 132-145). -/
def Button.fromRaw (value : Nat) : Button :=
  if value = SDL_BUTTON_LEFT then Button.Left
  else if value = SDL_BUTTON_MIDDLE then Button.Middle
  else if value = SDL_BUTTON_RIGHT then Button.Right
  else if value = SDL_BUTTON_WHEELUP then Button.WheelUp
  else if value = SDL_BUTTON_WHEELDOWN then Button.WheelDown
  else if value = SDL_BUTTON_X1 then Button.X1
  else if value = SDL_BUTTON_X2 then Button.X2
  else Button.Other value

/-- `sys::SDL_MouseButtonEvent` (SDL 1.2): type, which, button, state,
x, y. -/
structure SDL_MouseButtonEvent where
  type : Nat
  which : Nat
  button : Nat
  state : Nat
  x : Nat
  y : Nat
  deriving DecidableEq, Repr

/-- `pub struct MouseButtonEvent` of `event.rs` (lines 147-152): note the
pressed/released state becomes a `bool`, there is no `Unknown` variant. -/
structure MouseButtonEvent where
  button : Button
  pressed : Bool
  x : Nat
  y : Nat
  deriving DecidableEq, Repr

/-- `impl From<sys::SDL_MouseButtonEvent> for MouseButtonEvent` of
`event.rs` (lines 156-165): `pressed` is the boolean
`value.state == SDL_PRESSED`. -/
def MouseButtonEvent.fromRaw (value : SDL_MouseButtonEvent) : MouseButtonEvent :=
  ⟨Button.fromRaw value.button, value.state == SDL_PRESSED, value.x, value.y⟩

/-- `sys::SDL_JoyAxisEvent` (SDL 1.2). -/
structure SDL_JoyAxisEvent where
  type : Nat
  which : Nat
  axis : Nat
  value : Int
  deriving DecidableEq, Repr

/-- `pub struct JoyAxisEvent` of `event.rs` (lines 169-173). -/
structure JoyAxisEvent where
  device : Nat
  axis : Nat
  value : Int
  deriving DecidableEq, Repr

/-- `impl From<sys::SDL_JoyAxisEvent> for JoyAxisEvent` of `event.rs`
(lines 175-183). -/
def JoyAxisEvent.fromRaw (value : SDL_JoyAxisEvent) : JoyAxisEvent :=
  ⟨value.which, value.axis, value.value⟩

/-- `sys::SDL_JoyButtonEvent` (SDL 1.2): type, which, button, state. -/
structure SDL_JoyButtonEvent where
  type : Nat
  which : Nat
  button : Nat
  state : Nat
  deriving DecidableEq, Repr

/-- `pub struct JoyButtonEvent` of `event.rs` (lines 187-192): as for
mouse buttons, the state becomes a `bool` with no `Unknown` variant. -/
structure JoyButtonEvent where
  device : Nat
  button : Nat
  pressed : Bool
  deriving DecidableEq, Repr

/-- `impl From<sys::SDL_JoyButtonEvent> for JoyButtonEvent` of `event.rs`
(lines 194-202): `pressed` is the boolean `value.state == SDL_PRESSED`. -/
def JoyButtonEvent.fromRaw (value : SDL_JoyButtonEvent) : JoyButtonEvent :=
  ⟨value.which, value.button, value.state == SDL_PRESSED⟩

/-- `sys::SDL_JoyHatEvent` (SDL 1.2). -/
structure SDL_JoyHatEvent where
  type : Nat
  which : Nat
  hat : Nat
  value : Nat
  deriving DecidableEq, Repr

/-- `pub struct JoyHatEvent` of `event.rs` (lines 206-210). -/
structure JoyHatEvent where
  device : Nat
  hat : Nat
  value : Nat
  deriving DecidableEq, Repr

/-- `impl From<sys::SDL_JoyHatEvent> for JoyHatEvent` of `event.rs`
(lines 212-220). -/
def JoyHatEvent.fromRaw (value : SDL_JoyHatEvent) : JoyHatEvent :=
  ⟨value.which, value.hat, value.value⟩

/-- `sys::SDL_JoyBallEvent` (SDL 1.2). -/
structure SDL_JoyBallEvent where
  type : Nat
  which : Nat
  ball : Nat
  xrel : Int
  yrel : Int
  deriving DecidableEq, Repr

/-- `pub struct JoyBallEvent` of `event.rs` (lines 224-229). -/
structure JoyBallEvent where
  device : Nat
  ball : Nat
  xrel : Int
  yrel : Int
  deriving DecidableEq, Repr

/-- `impl From<sys::SDL_JoyBallEvent> for JoyBallEvent` of `event.rs`
(lines 231-240). -/
def JoyBallEvent.fromRaw (value : SDL_JoyBallEvent) : JoyBallEvent :=
  ⟨value.which, value.ball, value.xrel, value.yrel⟩

/-- `sys::SDL_ResizeEvent` (SDL 1.2). -/
structure SDL_ResizeEvent where
  type : Nat
  w : Int
  h : Int
  deriving DecidableEq, Repr

/-- `pub struct ResizeEvent` of `event.rs` (lines 244-247). -/
structure ResizeEvent where
  w : Int
  h : Int
  deriving DecidableEq, Repr

/-- `impl From<sys::SDL_ResizeEvent> for ResizeEvent` of `event.rs`
(lines 249-256). -/
def ResizeEvent.fromRaw (value : SDL_ResizeEvent) : ResizeEvent :=
  ⟨value.w, value.h⟩

/-- `pub enum Event` of `event.rs` (lines 6-21), with the user payload
type parameter instantiated at its default `()`. -/
inductive Event where
  | Active (e : ActiveEvent)
  | Keyboard (e : KeyboardEvent)
  | MouseMotion (e : MouseMotionEvent)
  | MouseButton (e : MouseButtonEvent)
  | JoyAxis (e : JoyAxisEvent)
  | JoyButton (e : JoyButtonEvent)
  | JoyHat (e : JoyHatEvent)
  | JoyBall (e : JoyBallEvent)
  | Resize (e : ResizeEvent)
  | Expose
  | SysWM
  | Quit
  | User
  | Unknown
  deriving DecidableEq, Repr

/-- One raw polled event record: the SDL 1.2 `SDL_Event` C union keyed by
the `type` discriminant.  As with a C union, every payload interpretation
is available; the discriminant selects which one is meaningful. -/
structure SDL_Event where
  type : Nat
  active : SDL_ActiveEvent
  key : SDL_KeyboardEvent
  motion : SDL_MouseMotionEvent
  button : SDL_MouseButtonEvent
  jaxis : SDL_JoyAxisEvent
  jball : SDL_JoyBallEvent
  jhat : SDL_JoyHatEvent
  jbutton : SDL_JoyButtonEvent
  resize : SDL_ResizeEvent
  deriving DecidableEq, Repr

/-- The discriminants for which the crate has a conversion: the payload
types with `From` impls in `event.rs`, plus the payload-free `Quit` and
`Expose` discriminants. -/
def recognizedDiscriminant (t : Nat) : Bool :=
  t = SDL_ACTIVEEVENT || t = SDL_KEYDOWN || t = SDL_KEYUP ||
  t = SDL_MOUSEMOTION || t = SDL_MOUSEBUTTONDOWN || t = SDL_MOUSEBUTTONUP ||
  t = SDL_JOYAXISMOTION || t = SDL_JOYBALLMOTION || t = SDL_JOYHATMOTION ||
  t = SDL_JOYBUTTONDOWN || t = SDL_JOYBUTTONUP ||
  t = SDL_VIDEORESIZE || t = SDL_VIDEOEXPOSE || t = SDL_QUITEVENT

/-- Modelled from the spec: the crate sources contain the per-variant
conversions (`event.rs`) and the `Event::Unknown` catch-all variant, but
the dispatch from a raw polled record's discriminant to those conversions
is not under `src/`; it is modelled here following the spec's EventDecoder
contract: each recognized discriminant uses the matching conversion of
`event.rs`, `Quit` and `Expose` decode to unit variants, and every other
discriminant decodes to `Event::Unknown`. -/
def decodeEvent (e : SDL_Event) : Event :=
  if e.type = SDL_ACTIVEEVENT then Event.Active (ActiveEvent.fromRaw e.active)
  else if e.type = SDL_KEYDOWN ∨ e.type = SDL_KEYUP then
    Event.Keyboard (KeyboardEvent.fromRaw e.key)
  else if e.type = SDL_MOUSEMOTION then
    Event.MouseMotion (MouseMotionEvent.fromRaw e.motion)
  else if e.type = SDL_MOUSEBUTTONDOWN ∨ e.type = SDL_MOUSEBUTTONUP then
    Event.MouseButton (MouseButtonEvent.fromRaw e.button)
  else if e.type = SDL_JOYAXISMOTION then
    Event.JoyAxis (JoyAxisEvent.fromRaw e.jaxis)
  else if e.type = SDL_JOYBALLMOTION then
    Event.JoyBall (JoyBallEvent.fromRaw e.jball)
  else if e.type = SDL_JOYHATMOTION then
    Event.JoyHat (JoyHatEvent.fromRaw e.jhat)
  else if e.type = SDL_JOYBUTTONDOWN ∨ e.type = SDL_JOYBUTTONUP then
    Event.JoyButton (JoyButtonEvent.fromRaw e.jbutton)
  else if e.type = SDL_VIDEORESIZE then
    Event.Resize (ResizeEvent.fromRaw e.resize)
  else if e.type = SDL_VIDEOEXPOSE then Event.Expose
  else if e.type = SDL_QUITEVENT then Event.Quit
  else Event.Unknown

/-! ## Subsystem lifecycle (`sdl.rs`, `timer.rs`, `cdrom.rs`, `event.rs`)

The crate defines one guard type per subsystem; each constructor calls
`SDL_InitSubSystem` with the subsystem's bitmask, each `Drop` impl calls
`SDL_QuitSubSystem` with the same bitmask.  `SDL`'s `Drop` impl calls the
global `SDL_Quit`.  The bodies below are translated from the source; the
ordering guarantees of Rust ownership are embedded afterwards as the
`WellBorrowed` predicate on abstract lifecycle traces. -/

/-- The subsystem guard kinds present under `src/`: `VideoSubsystem`
(`sdl.rs`), `timer::Subsystem`, `cdrom::Subsystem`, `event::Subsystem`. -/
inductive SubsystemKind where
  | video
  | timer
  | cdrom
  | eventthread
  deriving DecidableEq, Repr, Fintype

/-- The init/quit bitmask each guard kind passes to the native library. -/
def subsystemMask (k : SubsystemKind) : Nat :=
  match k with
  | .video => SDL_INIT_VIDEO
  | .timer => SDL_INIT_TIMER
  | .cdrom => SDL_INIT_CDROM
  | .eventthread => SDL_INIT_EVENTTHREAD

/-- `impl Drop for SDL` of `sdl.rs` (lines 11-17): the body is the single
call `SDL_Quit()`. -/
def sdlDropCalls : List NativeCall :=
  [NativeCall.sdlQuit]

/-- `impl Drop for VideoSubsystem` of `sdl.rs` (lines 40-44): the single
call `SDL_QuitSubSystem(SDL_INIT_VIDEO)`. -/
def videoSubsystemDropCalls : List NativeCall :=
  [NativeCall.quitSubSystem SDL_INIT_VIDEO]

/-- `impl Drop for Subsystem` of `timer.rs` (lines 13-19): the single
call `SDL_QuitSubSystem(SDL_INIT_TIMER)`. -/
def timerSubsystemDropCalls : List NativeCall :=
  [NativeCall.quitSubSystem SDL_INIT_TIMER]

/-- `impl Drop for Subsystem` of `cdrom.rs` (lines 13-19): the single
call `SDL_QuitSubSystem(SDL_INIT_CDROM)`. -/
def cdromSubsystemDropCalls : List NativeCall :=
  [NativeCall.quitSubSystem SDL_INIT_CDROM]

/-- `impl Drop for Subsystem` of `event.rs` (lines 265-269): the single
call `SDL_QuitSubSystem(SDL_INIT_EVENTTHREAD)`. -/
def eventSubsystemDropCalls : List NativeCall :=
  [NativeCall.quitSubSystem SDL_INIT_EVENTTHREAD]

/-- The native calls run when a guard of kind `k` is destroyed: dispatch
to the `Drop` impl of that guard type. -/
def guardDropCalls (k : SubsystemKind) : List NativeCall :=
  match k with
  | .video => videoSubsystemDropCalls
  | .timer => timerSubsystemDropCalls
  | .cdrom => cdromSubsystemDropCalls
  | .eventthread => eventSubsystemDropCalls

/-- The native calls run when a guard of kind `k` is constructed:
`VideoSubsystem::new` (`sdl.rs` lines 46-56) and the `Subsystem::new`
constructors of `timer.rs`, `cdrom.rs` and `event.rs` each issue one
`SDL_InitSubSystem(mask)` call. -/
def guardNewCalls (k : SubsystemKind) : List NativeCall :=
  [NativeCall.initSubSystem (subsystemMask k)]

/-- The full native-call footprint of one guard value: constructed once,
then (because the guard types implement no `Copy`/`Clone` and Rust runs
`Drop` exactly once per owned value) destroyed once. -/
def guardLifecycle (k : SubsystemKind) : List NativeCall :=
  guardNewCalls k ++ guardDropCalls k

/-- Abstract lifecycle events of one execution: creation/destruction of
the root `SDL` context and of subsystem guards derived from it. -/
inductive LifeEvent where
  | createRoot
  | dropRoot
  | createGuard (k : SubsystemKind)
  | dropGuard (k : SubsystemKind)
  deriving DecidableEq, Repr

/-- Whether a lifecycle event concerns a subsystem guard rather than the
root context. -/
def isGuardEvent (e : LifeEvent) : Bool :=
  match e with
  | .createGuard _ => true
  | .dropGuard _ => true
  | _ => false

/-- The native calls each lifecycle event performs, per the constructor
and `Drop` bodies of the source (`init` in `sdl.rs` lines 19-27 calls
`SDL_Init(0)`). -/
def lifeCalls (e : LifeEvent) : List NativeCall :=
  match e with
  | .createRoot => [NativeCall.sdlInit 0]
  | .dropRoot => sdlDropCalls
  | .createGuard k => guardNewCalls k
  | .dropGuard k => guardDropCalls k

/-- The ordered native-call trace of a lifecycle trace. -/
def nativeTrace (tr : List LifeEvent) : List NativeCall :=
  tr.flatMap lifeCalls

/-- The borrow discipline of the crate, embedded as a trace shape:
`VideoSubsystem::new(&SDL)` (and the root's `video()` method) require a
live shared borrow of the root context, and each guard's lifetime is
contained in that borrow, so every guard event of an execution lies
strictly between the creation of the root context and its destruction;
the destructor of the root runs last. -/
def WellBorrowed (tr : List LifeEvent) : Prop :=
  ∃ mid : List LifeEvent,
    tr = LifeEvent.createRoot :: mid ++ [LifeEvent.dropRoot] ∧
    ∀ e ∈ mid, isGuardEvent e = true

/-! ## Helper lemmas -/

/-- A guard lifecycle contains one `quitSubSystem` call for its own mask
and none for any other kind's mask (the four masks are pairwise
distinct). -/
lemma count_quit_guardLifecycle (k k' : SubsystemKind) :
    List.count (NativeCall.quitSubSystem (subsystemMask k)) (guardLifecycle k') =
      if k' = k then 1 else 0 := by
  revert k k'
  decide

/-- Guard constructors never emit the global `SDL_Quit` call. -/
lemma sdlQuit_not_mem_guardNewCalls (k : SubsystemKind) :
    NativeCall.sdlQuit ∉ guardNewCalls k := by
  revert k
  decide

/-- Guard destructors never emit the global `SDL_Quit` call. -/
lemma sdlQuit_not_mem_guardDropCalls (k : SubsystemKind) :
    NativeCall.sdlQuit ∉ guardDropCalls k := by
  revert k
  decide

/-- No native call issued by a guard event is the global `SDL_Quit`. -/
lemma sdlQuit_not_mem_guard_lifeCalls {e : LifeEvent}
    (h : isGuardEvent e = true) : NativeCall.sdlQuit ∉ lifeCalls e := by
  cases e with
  | createGuard k => exact sdlQuit_not_mem_guardNewCalls k
  | dropGuard k => exact sdlQuit_not_mem_guardDropCalls k
  | createRoot => cases h
  | dropRoot => cases h

/-! ## Claim theorems -/

/-- Claim C8: converting a `Color` to the native `SDL_Color` (r, g, b plus
the `unused` byte holding alpha) and back is the identity, and
`Color(1,2,3,4)` packs big-endian to exactly `0x01020304`, with the
packed-then-unpacked value equal to the original. -/
theorem C8_color_roundtrip :
    (∀ c : Color, Color.fromSdlColor (Color.raw c) = c) ∧
    Color.intoU32 (Color.rgba 1 2 3 4) = 0x01020304 ∧
    Color.fromU32 (Color.intoU32 (Color.rgba 1 2 3 4)) = Color.rgba 1 2 3 4 := by
  refine ⟨fun c => ?_, by decide, by decide⟩
  cases c
  rfl

/-- Claim C2 counterexample: with the library's numeric error code set to
the known code `SDL_ENOMEM`, `get_error` returns `Other` carrying the raw
message text, not the `ErrorCode(NoMemError)` variant the claim
requires — `get_error` in `sdl.rs` never consults the numeric code. -/
theorem C2_counterexample :
    get_error ⟨SDL_errorcode.SDL_ENOMEM, "Out of memory"⟩ =
      ⟨ErrorRepr.Other "Out of memory"⟩ ∧
    get_error ⟨SDL_errorcode.SDL_ENOMEM, "Out of memory"⟩ ≠
      ⟨ErrorRepr.ErrorCode ErrorCode.NoMemError⟩ := by
  exact ⟨rfl, by decide⟩

/-- Claim C2 (amended): every call to `get_error()` returns
`Other(text)` carrying the raw message text, regardless of the library's
current numeric error code; the known-code table lives only in the unused
standalone `From<SDL_errorcode> for ErrorCode` conversion, which maps the
five known codes to their variants and any other code to
`UnsupportedError`. -/
theorem C2_get_error_always_other :
    (∀ s : ErrorState, get_error s = ⟨ErrorRepr.Other s.text⟩) ∧
    ErrorCode.fromSdlErrorcode SDL_errorcode.SDL_ENOMEM = ErrorCode.NoMemError ∧
    ErrorCode.fromSdlErrorcode SDL_errorcode.SDL_EFREAD = ErrorCode.ReadError ∧
    ErrorCode.fromSdlErrorcode SDL_errorcode.SDL_EFWRITE = ErrorCode.WriteError ∧
    ErrorCode.fromSdlErrorcode SDL_errorcode.SDL_EFSEEK = ErrorCode.SeekError ∧
    ErrorCode.fromSdlErrorcode SDL_errorcode.SDL_UNSUPPORTED =
      ErrorCode.UnsupportedError ∧
    ErrorCode.fromSdlErrorcode SDL_errorcode.SDL_LASTERROR =
      ErrorCode.UnsupportedError :=
  ⟨fun _ => rfl, rfl, rfl, rfl, rfl, rfl, rfl⟩

/-- Claim C5: `build()` validates the title and the `width < 2^31`,
`height < 2^31` bounds strictly before any native call; an oversized
width fails with `WidthOverflows`, an oversized height with
`HeightOverflows`, and in these failure cases the native-call trace is
empty, so an invalid size never reaches the native library. -/
theorem C5_size_validation (b : WindowBuilder) (env : VideoEnv)
    (hnul : titleHasNul b.title = false)
    (hov : 2 ^ 31 ≤ b.width ∨ 2 ^ 31 ≤ b.height) :
    (b.build env).2 = [] ∧
    (2 ^ 31 ≤ b.width →
      (b.build env).1 = Except.error (WindowBuildError.WidthOverflows b.width)) ∧
    (b.width < 2 ^ 31 → 2 ^ 31 ≤ b.height →
      (b.build env).1 = Except.error (WindowBuildError.HeightOverflows b.width)) := by
  by_cases hw : 2 ^ 31 ≤ b.width
  · have hw' : (2147483648 : Nat) ≤ b.width := hw
    refine ⟨?_, fun _ => ?_, fun hlt _ => absurd hw (Nat.not_le.mpr hlt)⟩ <;>
      simp [WindowBuilder.build, hnul, hw']
  · have hh : 2 ^ 31 ≤ b.height := hov.resolve_left hw
    have hw' : ¬ (2147483648 : Nat) ≤ b.width := hw
    have hh' : (2147483648 : Nat) ≤ b.height := hh
    refine ⟨?_, fun h => absurd h hw, fun _ _ => ?_⟩ <;>
      simp [WindowBuilder.build, hnul, hw', hh']

/-- Claim C5 witness: a builder with `width = 2^31` fails with
`WidthOverflows` and performs zero native calls. -/
theorem C5_witness :
    (WindowBuilder.build ⟨"demo", 2 ^ 31, 600, 0⟩
        ⟨some 1, ⟨SDL_errorcode.SDL_ENOMEM, "e"⟩⟩).2 = [] ∧
    (WindowBuilder.build ⟨"demo", 2 ^ 31, 600, 0⟩
        ⟨some 1, ⟨SDL_errorcode.SDL_ENOMEM, "e"⟩⟩).1 =
      Except.error (WindowBuildError.WidthOverflows (2 ^ 31)) :=
  have h := C5_size_validation ⟨"demo", 2 ^ 31, 600, 0⟩
    ⟨some 1, ⟨SDL_errorcode.SDL_ENOMEM, "e"⟩⟩ (by decide)
    (Or.inl (Nat.le_refl _))
  ⟨h.1, h.2.1 (Nat.le_refl _)⟩

/-- Claim C10: when `build()` fails the height validation (valid title,
`width < 2^31`, `height ≥ 2^31`), the returned `HeightOverflows` value
carries the builder's `width` field — the source passes `self.width` to
`HeightOverflows`, not `self.height`. -/
theorem C10_height_overflow_carries_width (b : WindowBuilder) (env : VideoEnv)
    (hnul : titleHasNul b.title = false) (hw : b.width < 2 ^ 31)
    (hh : 2 ^ 31 ≤ b.height) :
    b.build env = (Except.error (WindowBuildError.HeightOverflows b.width), []) := by
  have hw' : ¬ (2147483648 : Nat) ≤ b.width := Nat.not_le.mpr hw
  have hh' : (2147483648 : Nat) ≤ b.height := hh
  simp [WindowBuilder.build, hnul, hw', hh']

/-- Claim C10 witness: a builder with `width = 7` and `height = 2^31`
returns `HeightOverflows 7`, carrying the width, not the height. -/
theorem C10_witness :
    WindowBuilder.build ⟨"demo", 7, 2 ^ 31, 0⟩
        ⟨some 1, ⟨SDL_errorcode.SDL_ENOMEM, "e"⟩⟩ =
      (Except.error (WindowBuildError.HeightOverflows 7), []) :=
  C10_height_overflow_carries_width ⟨"demo", 7, 2 ^ 31, 0⟩
    ⟨some 1, ⟨SDL_errorcode.SDL_ENOMEM, "e"⟩⟩ (by decide) (by decide)
    (Nat.le_refl _)

/-- Claim C3 counterexample: with a null mode-set result, `build()` still
issues the caption-set native call, and it does so before reading the
error — the trace on failure is
`[setVideoMode, setCaption, getErrorRead]`, falsifying both "the
caption-set call is issued only on success" and "returns SdlError without
performing any further native call before reading the error". -/
theorem C3_counterexample :
    (WindowBuilder.build ⟨"demo", 800, 600, 0⟩
        ⟨none, ⟨SDL_errorcode.SDL_UNSUPPORTED, "fail"⟩⟩).2 =
      [NativeCall.setVideoMode 800 600 32 0, NativeCall.setCaption "demo",
        NativeCall.getErrorRead] ∧
    (WindowBuilder.build ⟨"demo", 800, 600, 0⟩
        ⟨none, ⟨SDL_errorcode.SDL_UNSUPPORTED, "fail"⟩⟩).1 =
      Except.error (WindowBuildError.SdlError ⟨ErrorRepr.Other "fail"⟩) := by
  exact ⟨rfl, rfl⟩

/-- Claim C3 (amended): after the validations pass, `build()` performs the
mode-set call and then issues the caption-set call unconditionally,
regardless of the mode-set's success; when the mode-set result is null it
reads the error and returns `SdlError` only after the caption-set call,
and on success the caption-set precedes wrapping the handle in a
`Surface`. -/
theorem C3_caption_unconditional (b : WindowBuilder) (env : VideoEnv)
    (hnul : titleHasNul b.title = false)
    (hw : b.width < 2 ^ 31) (hh : b.height < 2 ^ 31) :
    (env.modeSetResult = none →
      b.build env =
        (Except.error (WindowBuildError.SdlError (get_error env.errorState)),
         [NativeCall.setVideoMode b.width b.height 32 b.window_flags,
          NativeCall.setCaption b.title, NativeCall.getErrorRead])) ∧
    (∀ p, env.modeSetResult = some p →
      b.build env =
        (Except.ok ⟨p⟩,
         [NativeCall.setVideoMode b.width b.height 32 b.window_flags,
          NativeCall.setCaption b.title])) := by
  have hw' : ¬ (2147483648 : Nat) ≤ b.width := Nat.not_le.mpr hw
  have hh' : ¬ (2147483648 : Nat) ≤ b.height := Nat.not_le.mpr hh
  constructor
  · intro hnone
    simp [WindowBuilder.build, hnul, hw', hh', hnone]
  · intro p hp
    simp [WindowBuilder.build, hnul, hw', hh', hp]

/-- Claim C3 witness: a concrete failing build issues
`[setVideoMode, setCaption, getErrorRead]` and returns `SdlError`. -/
theorem C3_witness :
    WindowBuilder.build ⟨"demo", 800, 600, 0⟩
        ⟨none, ⟨SDL_errorcode.SDL_UNSUPPORTED, "fail"⟩⟩ =
      (Except.error (WindowBuildError.SdlError ⟨ErrorRepr.Other "fail"⟩),
       [NativeCall.setVideoMode 800 600 32 0, NativeCall.setCaption "demo",
        NativeCall.getErrorRead]) :=
  (C3_caption_unconditional ⟨"demo", 800, 600, 0⟩
      ⟨none, ⟨SDL_errorcode.SDL_UNSUPPORTED, "fail"⟩⟩
      (by decide) (by decide) (by decide)).1 rfl

/-- Claim C6: decoding an active event's `(focus-kind, gain)` pair
follows exactly the lookup table of `event.rs` (lines 55-67) —
`(MouseFocus,0)→MouseLeave`, `(MouseFocus,1)→MouseEnter`,
`(InputFocus,0)→AppUnfocused`, `(InputFocus,1)→AppFocused`,
`(AppActive,0)→Minimized`, `(AppActive,1)→Restored` — and every other
pair decodes to `Unknown`; the decoding is a total function of the raw
pair. -/
theorem C6_active_decode_table :
    (∀ t, ActiveEvent.fromRaw ⟨t, 0, SDL_APPMOUSEFOCUS⟩ = ActiveEvent.MouseLeave) ∧
    (∀ t, ActiveEvent.fromRaw ⟨t, 1, SDL_APPMOUSEFOCUS⟩ = ActiveEvent.MouseEnter) ∧
    (∀ t, ActiveEvent.fromRaw ⟨t, 0, SDL_APPINPUTFOCUS⟩ = ActiveEvent.AppUnfocused) ∧
    (∀ t, ActiveEvent.fromRaw ⟨t, 1, SDL_APPINPUTFOCUS⟩ = ActiveEvent.AppFocused) ∧
    (∀ t, ActiveEvent.fromRaw ⟨t, 0, SDL_APPACTIVE⟩ = ActiveEvent.Minimized) ∧
    (∀ t, ActiveEvent.fromRaw ⟨t, 1, SDL_APPACTIVE⟩ = ActiveEvent.Restored) ∧
    (∀ t g s,
      (s ≠ SDL_APPMOUSEFOCUS ∧ s ≠ SDL_APPINPUTFOCUS ∧ s ≠ SDL_APPACTIVE) ∨
        (g ≠ 0 ∧ g ≠ 1) →
      ActiveEvent.fromRaw ⟨t, g, s⟩ = ActiveEvent.Unknown) := by
  refine ⟨fun t => rfl, fun t => rfl, fun t => rfl, fun t => rfl, fun t => rfl,
    fun t => rfl, fun t g s h => ?_⟩
  rcases h with ⟨h1, h2, h3⟩ | ⟨h1, h2⟩
  · simp [ActiveEvent.fromRaw, h1, h2, h3]
  · simp [ActiveEvent.fromRaw, h1, h2]

/-- Claim C6 witness: the undefined pair `(InputFocus, 7)` decodes to
`Unknown`, via the catch-all part of the table theorem. -/
theorem C6_witness :
    ActiveEvent.fromRaw ⟨SDL_ACTIVEEVENT, 7, SDL_APPINPUTFOCUS⟩ =
      ActiveEvent.Unknown :=
  C6_active_decode_table.2.2.2.2.2.2 SDL_ACTIVEEVENT 7 SDL_APPINPUTFOCUS
    (Or.inr ⟨by decide, by decide⟩)

/-- Claim C4 counterexample: for mouse-button events the decoded type has
no `Unknown` variant at all — a raw state value of `2` (neither
`SDL_PRESSED` nor `SDL_RELEASED`) decodes to exactly the same value as
`SDL_RELEASED` (`pressed = false`, the ButtonUp-style outcome), not to an
`Unknown` variant; likewise for joystick-button events. -/
theorem C4_counterexample :
    MouseButtonEvent.fromRaw ⟨SDL_MOUSEBUTTONDOWN, 0, SDL_BUTTON_LEFT, 2, 10, 20⟩ =
      MouseButtonEvent.fromRaw
        ⟨SDL_MOUSEBUTTONUP, 0, SDL_BUTTON_LEFT, SDL_RELEASED, 10, 20⟩ ∧
    (MouseButtonEvent.fromRaw
        ⟨SDL_MOUSEBUTTONDOWN, 0, SDL_BUTTON_LEFT, 2, 10, 20⟩).pressed = false ∧
    JoyButtonEvent.fromRaw ⟨SDL_JOYBUTTONDOWN, 0, 3, 2⟩ =
      JoyButtonEvent.fromRaw ⟨SDL_JOYBUTTONUP, 0, 3, SDL_RELEASED⟩ := by
  exact ⟨rfl, rfl, rfl⟩

/-- Claim C4 (amended): keyboard events map `Released → KeyUp`,
`Pressed → KeyDown` and any other raw state to `Unknown`; mouse-button
and joystick-button events instead decode the state to a boolean
`pressed` flag that is true exactly when the state equals `Pressed`, so
any other raw value behaves like `Released` (their decoded types carry no
`Unknown` variant); every case is total, no decoding can panic. -/
theorem C4_pressed_released_decode :
    (∀ e : SDL_KeyboardEvent, e.state = SDL_RELEASED →
      KeyboardEvent.fromRaw e = KeyboardEvent.KeyUp e.keysym) ∧
    (∀ e : SDL_KeyboardEvent, e.state = SDL_PRESSED →
      KeyboardEvent.fromRaw e = KeyboardEvent.KeyDown e.keysym) ∧
    (∀ e : SDL_KeyboardEvent, e.state ≠ SDL_RELEASED → e.state ≠ SDL_PRESSED →
      KeyboardEvent.fromRaw e = KeyboardEvent.Unknown) ∧
    (∀ e : SDL_MouseButtonEvent,
      (MouseButtonEvent.fromRaw e).pressed = true ↔ e.state = SDL_PRESSED) ∧
    (∀ e : SDL_JoyButtonEvent,
      (JoyButtonEvent.fromRaw e).pressed = true ↔ e.state = SDL_PRESSED) := by
  refine ⟨fun e h => ?_, fun e h => ?_, fun e h1 h2 => ?_, fun e => ?_, fun e => ?_⟩
  · simp [KeyboardEvent.fromRaw, h]
  · simp [KeyboardEvent.fromRaw, h, SDL_RELEASED, SDL_PRESSED]
  · simp [KeyboardEvent.fromRaw, h1, h2]
  · simp [MouseButtonEvent.fromRaw]
  · simp [JoyButtonEvent.fromRaw]

/-- Claim C4 witness: a keyboard event with the undefined raw state `2`
decodes to `Unknown`, and one with the `Released` state decodes to
`KeyUp`, by applying the decode theorem at concrete events. -/
theorem C4_witness :
    KeyboardEvent.fromRaw ⟨SDL_KEYUP, 0, 2, ⟨0, 0, 0, 0⟩⟩ =
      KeyboardEvent.Unknown ∧
    KeyboardEvent.fromRaw ⟨SDL_KEYUP, 0, SDL_RELEASED, ⟨0, 0, 0, 0⟩⟩ =
      KeyboardEvent.KeyUp ⟨0, 0, 0, 0⟩ :=
  ⟨C4_pressed_released_decode.2.2.1 ⟨SDL_KEYUP, 0, 2, ⟨0, 0, 0, 0⟩⟩
      (by decide) (by decide),
   C4_pressed_released_decode.1 ⟨SDL_KEYUP, 0, SDL_RELEASED, ⟨0, 0, 0, 0⟩⟩ rfl⟩

/-- Claim C7: the event decoder is total over all discriminant values —
for every raw polled record whose discriminant is not among the
recognized handlers, decoding produces `Event.Unknown` (the decoder is a
total Lean function, so no input can fail or panic). -/
theorem C7_unknown_discriminant (e : SDL_Event)
    (h : recognizedDiscriminant e.type = false) :
    decodeEvent e = Event.Unknown := by
  simp only [recognizedDiscriminant, Bool.or_eq_false_iff,
    decide_eq_false_iff_not] at h
  obtain ⟨⟨⟨⟨⟨⟨⟨⟨⟨⟨⟨⟨⟨h1, h2⟩, h3⟩, h4⟩, h5⟩, h6⟩, h7⟩, h8⟩, h9⟩, h10⟩,
    h11⟩, h12⟩, h13⟩, h14⟩ := h
  simp [decodeEvent, h1, h2, h3, h4, h5, h6, h7, h8, h9, h10, h11, h12, h13, h14]

/-- Claim C7 witness: a raw record with the unassigned discriminant `200`
decodes to `Event.Unknown`. -/
theorem C7_witness :
    decodeEvent
      ⟨200, ⟨200, 0, 0⟩, ⟨200, 0, 0, ⟨0, 0, 0, 0⟩⟩, ⟨200, 0, 0, 0, 0, 0, 0⟩,
        ⟨200, 0, 0, 0, 0, 0⟩, ⟨200, 0, 0, 0⟩, ⟨200, 0, 0, 0, 0⟩,
        ⟨200, 0, 0, 0⟩, ⟨200, 0, 0, 0⟩, ⟨200, 0, 0⟩⟩ = Event.Unknown :=
  C7_unknown_discriminant _ (by decide)

/-- Claim C9: every subsystem guard's destructor performs exactly the one
matching subsystem-quit call (`SDL_QuitSubSystem` with the guard's own
mask); a guard's full construction-to-destruction lifecycle contains that
quit call exactly once; and across any multiset of guard lifecycles the
number of quit calls with a kind's mask equals the number of guards of
that kind, so construction and destruction are paired 1:1 with no
double-quit. -/
theorem C9_one_quit_per_guard :
    (∀ k, guardDropCalls k = [NativeCall.quitSubSystem (subsystemMask k)]) ∧
    (∀ k, List.count (NativeCall.quitSubSystem (subsystemMask k))
      (guardLifecycle k) = 1) ∧
    (∀ ks : List SubsystemKind, ∀ k,
      List.count (NativeCall.quitSubSystem (subsystemMask k))
          (ks.flatMap guardLifecycle) =
        List.count k ks) := by
  refine ⟨by decide, by decide, fun ks k => ?_⟩
  induction ks with
  | nil => simp
  | cons k' ks ih =>
      rw [List.flatMap_cons, List.count_append, ih, count_quit_guardLifecycle,
        List.count_cons]
      by_cases hk : k' = k <;> simp [hk] <;> omega

/-- Claim C1: in every execution respecting the crate's borrow discipline
(every guard lives strictly inside the root context's lifetime), the
global `SDL_Quit` issued by the root context's destructor occurs in the
native-call trace strictly after every `SDL_QuitSubSystem` issued by the
guards derived from that context. -/
theorem C1_global_quit_after_guard_quits (tr : List LifeEvent)
    (h : WellBorrowed tr) (i j m : Nat)
    (hi : (nativeTrace tr).get? i = some (NativeCall.quitSubSystem m))
    (hj : (nativeTrace tr).get? j = some NativeCall.sdlQuit) :
    i < j := by
  obtain ⟨mid, rfl, hmid⟩ := h
  have hshape : nativeTrace (LifeEvent.createRoot :: mid ++ [LifeEvent.dropRoot]) =
      NativeCall.sdlInit 0 :: (mid.flatMap lifeCalls ++ [NativeCall.sdlQuit]) := by
    simp [nativeTrace, lifeCalls, sdlDropCalls]
  have hq : NativeCall.sdlQuit ∉ mid.flatMap lifeCalls := by
    intro hmem
    rw [List.mem_flatMap] at hmem
    obtain ⟨e, he, hc⟩ := hmem
    exact sdlQuit_not_mem_guard_lifeCalls (hmid e he) hc
  rw [hshape] at hi hj
  have hlen : j = (mid.flatMap lifeCalls).length + 1 := by
    rcases j with _ | n
    · simp at hj
    · rw [List.get?_cons_succ] at hj
      rcases Nat.lt_trichotomy n (mid.flatMap lifeCalls).length with hn | hn | hn
      · rw [List.get?_append hn] at hj
        exact absurd (List.get?_mem hj) hq
      · omega
      · rw [List.get?_eq_none.mpr
            (by simp only [List.length_append, List.length_singleton,
              List.length_nil, List.length_cons]; omega)] at hj
        cases hj
  have hilt : i < (mid.flatMap lifeCalls).length + 2 := by
    by_contra hge
    rw [List.get?_eq_none.mpr
        (by simp only [List.length_cons, List.length_append,
          List.length_singleton, List.length_nil]; omega)] at hi
    cases hi
  have hine : i ≠ j := fun he => by
    rw [he, hj] at hi
    exact NativeCall.noConfusion (Option.some.inj hi)
  omega

/-- Claim C1 witness: a concrete execution — root created, a video guard
created and dropped inside its lifetime, root dropped — places the
`SDL_QuitSubSystem(SDL_INIT_VIDEO)` call at index 2 of the native trace,
strictly before the `SDL_Quit` at index 3. -/
theorem C1_witness :
    (nativeTrace [LifeEvent.createRoot,
        LifeEvent.createGuard SubsystemKind.video,
        LifeEvent.dropGuard SubsystemKind.video, LifeEvent.dropRoot]).get? 2 =
      some (NativeCall.quitSubSystem SDL_INIT_VIDEO) ∧ 2 < 3 :=
  ⟨by decide,
   C1_global_quit_after_guard_quits _
     ⟨[LifeEvent.createGuard SubsystemKind.video,
       LifeEvent.dropGuard SubsystemKind.video], rfl, by decide⟩
     2 3 SDL_INIT_VIDEO (by decide) (by decide)⟩

end RustSdl
